import Mathlib

/-!
Shallow embedding of the database-driven agent configuration manager of the
AIAgentWithCrewAI repository: the Django models (`agent/models.py`), the
`DatabaseAgentManager` fallback resolver, assembler and session recorder
(`agent/agents_db.py`), and the two REST endpoints the claims mention
(`agent/serializers.py`, `agent/api_views.py`).

Modelling conventions: database tables are Lean lists of row structures,
primary keys are `Nat`, Python strings are `String` (or `List Char` where
character-level reasoning is needed), Python floats that are only stored and
never computed with are `Rat`, a raised exception is an `Except` error
value, and calls into external libraries (the crewai `LLM(...)` constructor,
`json.loads`, `int()`, `float()`) are oracle parameters of the functions
that invoke them.
-/

/-- Python scalar values, as they appear in JSON `details` dictionaries and
as keyword-argument values passed to `PromptTemplate.render`. -/
inductive PyScalar where
  | pstr (s : String)
  | pint (n : Int)
  | pbool (b : Bool)
deriving DecidableEq

/-- Decimal digit character for a digit value below ten. -/
def digitChar : Nat → Char
  | 0 => '0' | 1 => '1' | 2 => '2' | 3 => '3' | 4 => '4'
  | 5 => '5' | 6 => '6' | 7 => '7' | 8 => '8' | _ => '9'

/-- Fuelled decimal rendering of a natural number (most significant first). -/
def natToCharsAux : Nat → Nat → List Char
  | 0, _ => []
  | fuel + 1, n =>
    if n < 10 then [digitChar n]
    else natToCharsAux fuel (n / 10) ++ [digitChar (n % 10)]

/-- Decimal digits of a natural number. -/
def natToChars (n : Nat) : List Char := natToCharsAux (n + 1) n

/-- Decimal string of a natural number. -/
def natToString (n : Nat) : String := String.mk (natToChars n)

/-- Decimal string of an integer, as Python `str` prints it. -/
def intToString (n : Int) : String :=
  if n < 0 then String.mk ('-' :: natToChars n.natAbs) else natToString n.toNat

/-- Python `str(value)` on the scalar values we model. -/
def pyStr : PyScalar → String
  | .pstr s => s
  | .pint n => intToString n
  | .pbool b => if b then "True" else "False"

/-- Minimal JSON value type standing for Python objects stored in Django
`JSONField` columns whose contents the claims never inspect. -/
inductive PyJson where
  | null
  | jbool (b : Bool)
  | jnum (n : Int)
  | jstr (s : String)
  | jarr (xs : List PyJson)
  | jobj (fields : List (String × PyJson))

/-- Python exceptions raised by the code under consideration. -/
inductive PyError where
  | valueError (msg : String)
  | runtimeError (msg : String)
  | integrityError (msg : String)
deriving DecidableEq

/-- Row of the `ModelConfiguration` table (`agent/models.py`). -/
structure ModelConfiguration where
  id : Nat
  name : String
  model_name : String
  temperature : Rat
  max_tokens : Nat
  top_p : Rat
  timeout : Nat
  priority : Int
  is_active : Bool
  is_fallback : Bool
deriving DecidableEq

/-- Row of the `AgentConfiguration` table (`agent/models.py`); `model_config`
is the foreign key to a `ModelConfiguration` row. -/
structure AgentConfiguration where
  id : Nat
  agent_type : String
  role : String
  goal : String
  backstory : String
  max_execution_time : Nat
  allow_delegation : Bool
  verbose : Bool
  is_active : Bool
  model_config : Nat
deriving DecidableEq

/-- Row of the `PromptTemplate` table (`agent/models.py`). -/
structure PromptTemplate where
  name : String
  template_type : String
  content : String
  «variables» : List String
  description : String
  is_active : Bool
deriving DecidableEq

/-- Row of the `SystemConfiguration` table (`agent/models.py`). -/
structure SystemConfiguration where
  key : String
  value : String
  data_type : String
  is_active : Bool
deriving DecidableEq

/-- Row of the `HiringSession` table (`agent/models.py`). -/
structure HiringSession where
  id : Nat
  session_id : String
  candidate_name : String
  job_title : String
  status : String
  input_data : PyJson
  results : PyJson
  model_config_used : Option Nat
  execution_time : Option Rat

/-- Row of the `ErrorLog` table (`agent/models.py`); `session` and
`model_config` are nullable foreign keys kept as row ids. -/
structure ErrorLog where
  id : Nat
  error_type : String
  message : String
  details : List (String × PyScalar)
  session : Option Nat
  model_config : Option Nat
  resolved : Bool
deriving DecidableEq

/-- Relational state the functions of `agents_db.py` and the API views read
and write, with fresh-primary-key counters for row creation. -/
structure DB where
  model_configs : List ModelConfiguration
  agent_configs : List AgentConfiguration
  hiring_sessions : List HiringSession
  error_logs : List ErrorLog
  next_session_pk : Nat
  next_error_pk : Nat

/-- Handle returned by the external crewai `LLM(...)` constructor, carrying
the keyword arguments `_initialize_llm` passes to it. -/
structure LLM where
  model : String
  temperature : Rat
  max_tokens : Nat
  top_p : Rat
  timeout : Nat
  api_key : String
deriving DecidableEq

/-- Arguments of the `LLM(...)` call in `DatabaseAgentManager._initialize_llm`. -/
def buildLLM (api_key : String) (config : ModelConfiguration) : LLM :=
  { model := config.model_name
    temperature := config.temperature
    max_tokens := config.max_tokens
    top_p := config.top_p
    timeout := config.timeout
    api_key := api_key }

/-- Stable descending-priority insertion used to model the
`order_by('-priority')` queryset (ties keep an implementation-defined but
consistent order, as the spec allows). -/
def insertByPriority (c : ModelConfiguration) : List ModelConfiguration → List ModelConfiguration
  | [] => [c]
  | d :: ds => if d.priority < c.priority then c :: d :: ds else d :: insertByPriority c ds

/-- Rows of a `ModelConfiguration` queryset ordered by descending priority. -/
def order_by_priority_desc (l : List ModelConfiguration) : List ModelConfiguration :=
  l.foldr insertByPriority []

/-- ErrorLog row created inside the fallback loop of
`DatabaseAgentManager._initialize_llm` when configuring a model raises `e`. -/
def mkModelErrorLog (pk : Nat) (config : ModelConfiguration) (e : String) : ErrorLog :=
  { id := pk
    error_type := "model_error"
    message := "Failed to initialize " ++ config.model_name
    details := [("model_name", .pstr config.model_name),
                ("error", .pstr e),
                ("config_id", .pint (config.id : Int))]
    session := none
    model_config := some config.id
    resolved := false }

/-- Appends a freshly keyed `ErrorLog` row (`ErrorLog.objects.create`). -/
def DB.addError (db : DB) (mk : Nat → ErrorLog) : DB :=
  { db with
      error_logs := db.error_logs ++ [mk db.next_error_pk]
      next_error_pk := db.next_error_pk + 1 }

/-- Fallback loop of `_initialize_llm`: try each configuration in order,
logging a `model_error` row on failure, stopping at the first success.
`llmRaises config = some e` models the external `LLM(...)` constructor
raising exception `e` for that configuration; `none` models success. -/
def initLoop (llmRaises : ModelConfiguration → Option String) (api_key : String) :
    List ModelConfiguration → DB → DB × Except PyError (LLM × ModelConfiguration)
  | [], db => (db, .error (.runtimeError "No working model configuration found"))
  | config :: rest, db =>
    match llmRaises config with
    | none => (db, .ok (buildLLM api_key config, config))
    | some e => initLoop llmRaises api_key rest (db.addError (fun pk => mkModelErrorLog pk config e))

/-- `DatabaseAgentManager._initialize_llm`: filter the active model
configurations, order by descending priority, raise `ValueError` when none
exist, otherwise run the fallback loop. -/
def init_llm (llmRaises : ModelConfiguration → Option String) (api_key : String) (db : DB) :
    DB × Except PyError (LLM × ModelConfiguration) :=
  let model_configs := order_by_priority_desc (db.model_configs.filter (·.is_active))
  if model_configs = [] then
    (db, .error (.valueError "No active model configurations found in database"))
  else
    initLoop llmRaises api_key model_configs db

/-- The `ValueError` message `_initialize_llm` raises with zero active
configurations; the spec's taxonomy calls this failure `ConfigurationError`. -/
def ConfigurationError : PyError :=
  .valueError "No active model configurations found in database"

/-- The `RuntimeError` `_initialize_llm` raises when every attempt fails;
the spec's taxonomy calls this failure `ModelUnavailableError`. -/
def ModelUnavailableError : PyError :=
  .runtimeError "No working model configuration found"

/-- State of a constructed `DatabaseAgentManager` after `__init__`. -/
structure DatabaseAgentManager where
  api_key : String
  llm : LLM
  current_model_config : ModelConfiguration
deriving DecidableEq

/-- `DatabaseAgentManager.__init__`: require the `CREWAI_API_KEY` environment
variable (modelled as an `Option String`), then run `_initialize_llm`. -/
def mkManager (llmRaises : ModelConfiguration → Option String) (env_api_key : Option String)
    (db : DB) : DB × Except PyError DatabaseAgentManager :=
  match env_api_key with
  | none => (db, .error (.valueError "CREWAI_API_KEY environment variable is required"))
  | some key =>
    match init_llm llmRaises key db with
    | (db2, .ok (llm, config)) => (db2, .ok ⟨key, llm, config⟩)
    | (db2, .error e) => (db2, .error e)

/-- `get_manager` of `agents_db.py`: the process-wide memoized manager.
Returns the updated database, the updated cache, and the call's result. -/
def get_manager (llmRaises : ModelConfiguration → Option String) (env_api_key : Option String)
    (db : DB) (cached : Option DatabaseAgentManager) :
    DB × Option DatabaseAgentManager × Except PyError DatabaseAgentManager :=
  match cached with
  | some m => (db, some m, .ok m)
  | none =>
    match mkManager llmRaises env_api_key db with
    | (db2, .ok m) => (db2, some m, .ok m)
    | (db2, .error e) => (db2, none, .error e)

/-- Runtime agent object assembled by `DatabaseAgentManager.create_agents`,
carrying the keyword arguments the source passes to the crewai `Agent`
constructor. -/
structure Agent where
  role : String
  goal : String
  backstory : String
  llm : LLM
  verbose : Bool
  max_execution_time : Nat
  allow_delegation : Bool
deriving DecidableEq

/-- The `Agent(...)` call of `create_agents`; note the source passes
`llm=self.llm`, never the row's own `model_config`. -/
def mkAgent (llm : LLM) (config : AgentConfiguration) : Agent :=
  { role := config.role
    goal := config.goal
    backstory := config.backstory
    llm := llm
    verbose := config.verbose
    max_execution_time := config.max_execution_time
    allow_delegation := config.allow_delegation }

/-- Python dict assignment `agents[config.agent_type] = agent`. -/
def dictInsert (k : String) (v : Agent) : List (String × Agent) → List (String × Agent)
  | [] => [(k, v)]
  | (k2, v2) :: rest => if k2 = k then (k, v) :: rest else (k2, v2) :: dictInsert k v rest

/-- Python dict lookup `agents.get(key)`. -/
def dictGet (k : String) : List (String × Agent) → Option Agent
  | [] => none
  | (k2, v) :: rest => if k2 = k then some v else dictGet k rest

/-- `DatabaseAgentManager.create_agents`: build an agent for every active
`AgentConfiguration` row, all bound to the manager's current llm, and return
the `job_matcher` and `bias_auditor` entries. -/
def create_agents (mgr : DatabaseAgentManager) (db : DB) : Except PyError (Agent × Agent) :=
  let agent_configs := db.agent_configs.filter (·.is_active)
  if agent_configs.length < 2 then
    .error (.valueError "Need at least 2 active agent configurations")
  else
    let agents := agent_configs.foldl
      (fun m config => dictInsert config.agent_type (mkAgent mgr.llm config) m) []
    match dictGet "job_matcher" agents, dictGet "bias_auditor" agents with
    | some job_matcher, some bias_auditor => .ok (job_matcher, bias_auditor)
    | _, _ => .error (.valueError "Required agent configurations not found")

/-- Lower-cases an ASCII character, as Python `str.lower` does on the ASCII
strings the configuration values use. -/
def lowerChar (c : Char) : Char :=
  if 'A' ≤ c ∧ c ≤ 'Z' then Char.ofNat (c.toNat + 32) else c

/-- Python `value.lower()` on ASCII strings. -/
def pyLower (s : String) : String := String.mk (s.data.map lowerChar)

/-- Value returned by `SystemConfiguration.get_value`, which yields a
different Python type per `data_type`. -/
inductive PyValue where
  | vStr (s : String)
  | vInt (n : Int)
  | vFloat (q : Rat)
  | vBool (b : Bool)
  | vJson (j : PyJson)

/-- `SystemConfiguration.get_value` (`agent/models.py`).  The `int()`,
`float()` and `json.loads` coercions are Python builtins, modelled as oracle
parameters; the boolean branch is total in the source:
`self.value.lower() in ('true', '1', 'yes', 'on')`. -/
def SystemConfiguration.get_value (intF : String → Except PyError Int)
    (floatF : String → Except PyError Rat) (jsonF : String → Except PyError PyJson)
    (c : SystemConfiguration) : Except PyError PyValue :=
  if c.data_type = "integer" then (intF c.value).map .vInt
  else if c.data_type = "float" then (floatF c.value).map .vFloat
  else if c.data_type = "boolean" then
    .ok (.vBool (decide (pyLower c.value ∈ ["true", "1", "yes", "on"])))
  else if c.data_type = "json" then (jsonF c.value).map .vJson
  else .ok (.vStr c.value)

/-- Oracle stand-in for the Python builtins `get_value` may call on the
non-boolean branches; the theorems about the boolean branch hold for every
oracle, so an arbitrary one suffices for closed instances. -/
def anyIntF : String → Except PyError Int :=
  fun s => .error (.valueError ("invalid literal for int() with base 10: " ++ s))

/-- Oracle stand-in for Python `float()`, see `anyIntF`. -/
def anyFloatF : String → Except PyError Rat :=
  fun s => .error (.valueError ("could not convert string to float: " ++ s))

/-- Oracle stand-in for Python `json.loads`, see `anyIntF`. -/
def anyJsonF : String → Except PyError PyJson :=
  fun _ => .error (.valueError "Expecting value: line 1 column 1 (char 0)")

/-- Character-by-character test that `pat` is an initial segment of the
second argument, used to model Python `str.replace` scanning. -/
def patMatch : List Char → List Char → Bool
  | [], _ => true
  | _ :: _, [] => false
  | p :: ps, c :: cs => if p = c then patMatch ps cs else false

/-- Scanner of Python `str.replace(pat, rep)`: at skip 0 it tests for a match
at the current position, emits `rep` and skips the matched characters on
success, otherwise keeps one character and continues. -/
def replaceGo (pat rep : List Char) : Nat → List Char → List Char
  | _, [] => []
  | skip + 1, _ :: cs => replaceGo pat rep skip cs
  | 0, c :: cs =>
    if patMatch pat (c :: cs) then rep ++ replaceGo pat rep (pat.length - 1) cs
    else c :: replaceGo pat rep 0 cs

/-- Python `s.replace(pat, rep)` for a nonempty pattern. -/
def pyReplace (s pat rep : List Char) : List Char := replaceGo pat rep 0 s

/-- Placeholder `f"{{{key}}}"` built in `PromptTemplate.render`. -/
def placeholderChars (key : String) : List Char := '{' :: (key.data ++ ['}'])

/-- `PromptTemplate.render` (`agent/models.py`): for each supplied keyword
argument in order, replace every `{key}` occurrence by `str(value)`. -/
def PromptTemplate.render (t : PromptTemplate) (vars : List (String × PyScalar)) : String :=
  String.mk (vars.foldl
    (fun content kv => pyReplace content (placeholderChars kv.1) (pyStr kv.2).data)
    t.content.data)

/-- `DatabaseAgentManager.log_session_start`: `HiringSession.objects.create`
with status `processing` and the resolver's current model configuration; the
database's unique constraint on `session_id` is modelled by the duplicate
check raising `IntegrityError`. -/
def DatabaseAgentManager.log_session_start (mgr : DatabaseAgentManager) (session_id : String)
    (input_data : PyJson) (db : DB) : DB × Except PyError HiringSession :=
  if db.hiring_sessions.any (fun s => s.session_id == session_id) then
    (db, .error (.integrityError "UNIQUE constraint failed: agent_hiringsession.session_id"))
  else
    let s : HiringSession :=
      { id := db.next_session_pk
        session_id := session_id
        candidate_name := ""
        job_title := ""
        status := "processing"
        input_data := input_data
        results := .jobj []
        model_config_used := some mgr.current_model_config.id
        execution_time := none }
    ({ db with
        hiring_sessions := db.hiring_sessions ++ [s]
        next_session_pk := db.next_session_pk + 1 }, .ok s)

/-- Django `session.save()`: write the row back over the row with its
primary key. -/
def saveSession (db : DB) (s : HiringSession) : DB :=
  { db with hiring_sessions := db.hiring_sessions.map (fun r => if r.id = s.id then s else r) }

/-- `DatabaseAgentManager.log_session_complete`: set status, results and
execution time, then save. -/
def DatabaseAgentManager.log_session_complete (_mgr : DatabaseAgentManager) (s : HiringSession)
    (results : PyJson) (execution_time : Rat) (db : DB) : DB :=
  saveSession db { s with
    status := "completed"
    results := results
    execution_time := some execution_time }

/-- `DatabaseAgentManager.log_session_error`: set status to failed, save, and
create a linked `task_error` ErrorLog row recording `str(error)` and the
session id. -/
def DatabaseAgentManager.log_session_error (mgr : DatabaseAgentManager) (s : HiringSession)
    (error : String) (db : DB) : DB :=
  let s2 : HiringSession := { s with status := "failed" }
  let db2 := saveSession db s2
  db2.addError (fun pk =>
    { id := pk
      error_type := "task_error"
      message := error
      details := [("session_id", .pstr s.session_id)]
      session := some s.id
      model_config := some mgr.current_model_config.id
      resolved := false })

/-- Body of the JSON responses the two modelled endpoints produce. -/
inductive RespBody where
  | fieldErrors (errs : List (String × List String))
  | successMsg (msg : String)
  | failureErr (err : String)
  | createdSession (session_id : String)
deriving DecidableEq

/-- HTTP response with status code and JSON body. -/
structure HttpResponse where
  status : Nat
  body : RespBody
deriving DecidableEq

/-- Request body of `POST /api/sessions/`
(`HiringSessionCreateSerializer` fields). -/
structure SessionCreateData where
  session_id : String
  candidate_name : String
  job_title : String
  input_data : PyJson

/-- `POST` branch of `hiring_sessions` (`agent/api_views.py`) with
`HiringSessionCreateSerializer` validation: the serializer's field
validation enforces the model's `max_length=100` on `session_id`, then
`validate_session_id` rejects an already existing id; on success the row is
created with the model's default status `pending`. -/
def hiring_sessions_post (db : DB) (data : SessionCreateData) : DB × HttpResponse :=
  if 100 < data.session_id.length then
    (db, ⟨400, .fieldErrors [("session_id", ["Ensure this field has no more than 100 characters."])]⟩)
  else if db.hiring_sessions.any (fun s => s.session_id == data.session_id) then
    (db, ⟨400, .fieldErrors [("session_id", ["Session ID already exists"])]⟩)
  else
    let s : HiringSession :=
      { id := db.next_session_pk
        session_id := data.session_id
        candidate_name := data.candidate_name
        job_title := data.job_title
        status := "pending"
        input_data := data.input_data
        results := .jobj []
        model_config_used := none
        execution_time := none }
    ({ db with
        hiring_sessions := db.hiring_sessions ++ [s]
        next_session_pk := db.next_session_pk + 1 },
     ⟨201, .createdSession data.session_id⟩)

/-- `error_logs_resolve_multiple` (`agent/api_views.py`):
`request.data.get('error_ids', [])`, reject an empty list with 400,
otherwise `ErrorLog.objects.filter(id__in=error_ids).update(resolved=True)`
and report the number of rows the update matched. -/
def error_logs_resolve_multiple (db : DB) (error_ids : Option (List Nat)) : DB × HttpResponse :=
  let ids := error_ids.getD []
  if ids = [] then
    (db, ⟨400, .failureErr "No error IDs provided"⟩)
  else
    let updated_count := (db.error_logs.filter (fun e => decide (e.id ∈ ids))).length
    ({ db with
        error_logs := db.error_logs.map
          (fun e => if e.id ∈ ids then { e with resolved := true } else e) },
     ⟨200, .successMsg (natToString updated_count ++ " errors marked as resolved")⟩)

/-- Database effect of the failing prefix of the fallback loop: one
`model_error` row per failed configuration, in attempt order. -/
def failLogsDb (llmRaises : ModelConfiguration → Option String) (db : DB) :
    List ModelConfiguration → DB
  | [] => db
  | c :: cs =>
    match llmRaises c with
    | some e => failLogsDb llmRaises (db.addError (fun pk => mkModelErrorLog pk c e)) cs
    | none => failLogsDb llmRaises db cs

/-- The `ErrorLog` rows the failing prefix of the fallback loop appends,
starting from fresh primary key `pk`. -/
def failLogs (llmRaises : ModelConfiguration → Option String) (pk : Nat) :
    List ModelConfiguration → List ErrorLog
  | [] => []
  | c :: cs =>
    match llmRaises c with
    | some e => mkModelErrorLog pk c e :: failLogs llmRaises (pk + 1) cs
    | none => failLogs llmRaises pk cs

/-- Decomposition of a template's content into literal runs and `{name}`
placeholder tokens, the vocabulary in which the render claim is stated. -/
inductive TPart where
  | lit (s : List Char)
  | var (n : String)
deriving DecidableEq

/-- Text of one template part. -/
def partText : TPart → List Char
  | .lit s => s
  | .var n => placeholderChars n

/-- Concatenation of a list of character lists. -/
def concatAll : List (List Char) → List Char
  | [] => []
  | s :: rest => s ++ concatAll rest

/-- Text of a whole template decomposition. -/
def partsText (ps : List TPart) : List Char := concatAll (ps.map partText)

/-- Characters free of the two brace delimiters. -/
def braceFree (s : List Char) : Prop := ∀ c ∈ s, c ≠ '{' ∧ c ≠ '}'

instance (s : List Char) : Decidable (braceFree s) :=
  List.decidableBAll _ s

/-- Well-formed template part: literal runs carry no braces, placeholder
names are nonempty and brace-free. -/
def partWF : TPart → Prop
  | .lit s => braceFree s
  | .var n => n.data ≠ [] ∧ braceFree n.data

instance (p : TPart) : Decidable (partWF p) :=
  match p with
  | .lit s => inferInstanceAs (Decidable (braceFree s))
  | .var _ => inferInstanceAs (Decidable (_ ∧ _))

/-- Effect of one `content.replace(placeholder, value)` pass on a
decomposed template: placeholders named `k` become the literal `v`. -/
def substPart (k : String) (v : List Char) : TPart → TPart
  | .lit s => .lit s
  | .var n => if n = k then .lit v else .var n

/-- First binding of a name in the keyword-argument list. -/
def lookupVar (n : String) : List (String × PyScalar) → Option PyScalar
  | [] => none
  | (k, v) :: rest => if k = n then some v else lookupVar n rest

/-- Effect of a full render on a decomposed template: supplied placeholders
become the string form of their value, unsupplied ones stay verbatim. -/
def substVar (vars : List (String × PyScalar)) : TPart → TPart
  | .lit s => .lit s
  | .var n =>
    match lookupVar n vars with
    | some v => .lit (pyStr v).data
    | none => .var n

/-- Example model configuration row used by concrete witnesses. -/
def exMC : ModelConfiguration :=
  { id := 1, name := "gemma_primary", model_name := "gemini/gemma-7b",
    temperature := 1, max_tokens := 2048, top_p := 1, timeout := 180,
    priority := 10, is_active := true, is_fallback := false }

/-- Second example model configuration row (lower priority fallback). -/
def exMC2 : ModelConfiguration :=
  { id := 2, name := "gemma_fallback", model_name := "gemini/gemma-2b",
    temperature := 1, max_tokens := 1024, top_p := 1, timeout := 180,
    priority := 5, is_active := true, is_fallback := true }

/-- Example manager state used by concrete witnesses. -/
def exMgr : DatabaseAgentManager :=
  { api_key := "key", llm := buildLLM "key" exMC, current_model_config := exMC }

/-- Example hiring session already in the terminal `completed` state. -/
def exCompletedSession : HiringSession :=
  { id := 7, session_id := "sess-7", candidate_name := "", job_title := "",
    status := "completed", input_data := .jobj [], results := .jobj [],
    model_config_used := some 1, execution_time := some 12 }

/-- Example database holding the completed session. -/
def exDbCompleted : DB :=
  { model_configs := [exMC], agent_configs := [],
    hiring_sessions := [exCompletedSession], error_logs := [],
    next_session_pk := 8, next_error_pk := 1 }

/-- Example database with no sessions and no error logs. -/
def exDb0 : DB :=
  { model_configs := [exMC, exMC2], agent_configs := [],
    hiring_sessions := [], error_logs := [],
    next_session_pk := 1, next_error_pk := 1 }

/-- Example database with two unresolved error logs. -/
def exDbErrors : DB :=
  { model_configs := [exMC], agent_configs := [], hiring_sessions := [],
    error_logs :=
      [{ id := 1, error_type := "model_error", message := "m1", details := [],
         session := none, model_config := some 1, resolved := false },
       { id := 2, error_type := "api_error", message := "m2", details := [],
         session := none, model_config := none, resolved := false }],
    next_session_pk := 1, next_error_pk := 3 }

/-- Example active prompt template row. -/
def exTemplate : PromptTemplate :=
  { name := "bias_audit_instruction", template_type := "instruction",
    content := "Use at most {token_limit} tokens. Keep {other_var} short.",
    «variables» := ["token_limit"], description := "", is_active := true }

/-- Decomposition of `exTemplate`'s content into parts. -/
def exParts : List TPart :=
  [.lit "Use at most ".data, .var "token_limit", .lit " tokens. Keep ".data,
   .var "other_var", .lit " short.".data]

/-- Example active agent configuration rows for the two required types. -/
def exAgentJM : AgentConfiguration :=
  { id := 1, agent_type := "job_matcher", role := "Matcher", goal := "g1",
    backstory := "b1", max_execution_time := 300, allow_delegation := false,
    verbose := true, is_active := true, model_config := 1 }

/-- Example bias auditor agent configuration row. -/
def exAgentBA : AgentConfiguration :=
  { id := 2, agent_type := "bias_auditor", role := "Auditor", goal := "g2",
    backstory := "b2", max_execution_time := 300, allow_delegation := false,
    verbose := true, is_active := true, model_config := 1 }

/-- Example database with both required agent configurations. -/
def exDbAgents : DB :=
  { model_configs := [exMC], agent_configs := [exAgentJM, exAgentBA],
    hiring_sessions := [], error_logs := [],
    next_session_pk := 1, next_error_pk := 1 }

/-- Example constructor oracle: the primary model (id 1) raises, the
fallback (id 2) succeeds. -/
def exRaises : ModelConfiguration → Option String :=
  fun c => if c.id = 1 then some "APIConnectionError" else none

/-- Example constructor oracle for which every configuration raises. -/
def exRaisesAll : ModelConfiguration → Option String :=
  fun _ => some "APIConnectionError"

/-- Example database whose only model configuration is inactive. -/
def exDbInactive : DB :=
  { model_configs := [{ exMC with is_active := false }], agent_configs := [],
    hiring_sessions := [], error_logs := [],
    next_session_pk := 1, next_error_pk := 1 }

/-! Helper lemmas about the list-level database operations. -/

theorem map_update_eq_self (l : List HiringSession) (s2 : HiringSession) (i : Nat)
    (h : ∀ r ∈ l, r.id ≠ i) :
    l.map (fun r => if r.id = i then s2 else r) = l := by
  have : ∀ r ∈ l, (fun r => if r.id = i then s2 else r) r = id r := by
    intro r hr
    simp [h r hr]
  simpa using (List.map_congr_left this).trans (List.map_id l)

theorem any_session_id_eq_false (l : List HiringSession) (sid : String)
    (h : ∀ r ∈ l, r.session_id ≠ sid) :
    (l.any (fun s => s.session_id == sid)) = false := by
  rw [List.any_eq_false]
  intro r hr
  simpa using h r hr

theorem filter_session_eq_nil (l : List ErrorLog) (i : Nat)
    (h : ∀ e ∈ l, e.session ≠ some i) :
    l.filter (fun e => decide (e.session = some i)) = [] := by
  rw [List.filter_eq_nil_iff]
  intro e he
  simpa using h e he

theorem filter_mem_length_le (l : List ErrorLog) (ids : List Nat)
    (h : (l.map (·.id)).Nodup) :
    (l.filter (fun e => decide (e.id ∈ ids))).length ≤ ids.length := by
  classical
  set fl := l.filter (fun e => decide (e.id ∈ ids)) with hfl
  have hsl : (fl.map (·.id)).Sublist (l.map (·.id)) :=
    List.Sublist.map _ (List.filter_sublist l)
  have hnd : (fl.map (·.id)).Nodup := h.sublist hsl
  have hsub : ∀ x ∈ fl.map (·.id), x ∈ ids := by
    intro x hx
    obtain ⟨e, he, hex⟩ := List.mem_map.1 hx
    have := List.of_mem_filter he
    simpa [hex] using this
  calc fl.length = (fl.map (·.id)).length := (List.length_map _ _).symm
    _ = (fl.map (·.id)).toFinset.card := (List.toFinset_card_of_nodup hnd).symm
    _ ≤ ids.toFinset.card := by
        apply Finset.card_le_card
        intro x hx
        rw [List.mem_toFinset] at hx ⊢
        exact hsub x hx
    _ ≤ ids.length := ids.toFinset_card_le

/-! Claim theorems. -/

/-- C5 counterexample: the claim says `get_value()` fails with a coercion
error when a boolean-typed value is "maybe"; on the code it instead returns
`False`, because the boolean branch is a total membership test
`self.value.lower() in ('true', '1', 'yes', 'on')`. -/
theorem c5_counterexample :
    SystemConfiguration.get_value anyIntF anyFloatF anyJsonF
      { key := "FLAG", value := "maybe", data_type := "boolean", is_active := true }
      = .ok (.vBool false) := rfl

/-- C5 (amended): for a SystemConfiguration with data_type=boolean,
`get_value()` returns true when value is "true", false when value is "0",
and also false (with no error) when value is "maybe"; the boolean branch
never raises, whatever the `int()`, `float()` and `json.loads` builtins do. -/
theorem c5_boolean_coercion (intF : String → Except PyError Int)
    (floatF : String → Except PyError Rat) (jsonF : String → Except PyError PyJson) :
    SystemConfiguration.get_value intF floatF jsonF
        { key := "FLAG", value := "true", data_type := "boolean", is_active := true }
      = .ok (.vBool true) ∧
    SystemConfiguration.get_value intF floatF jsonF
        { key := "FLAG", value := "0", data_type := "boolean", is_active := true }
      = .ok (.vBool false) ∧
    SystemConfiguration.get_value intF floatF jsonF
        { key := "FLAG", value := "maybe", data_type := "boolean", is_active := true }
      = .ok (.vBool false) :=
  ⟨rfl, rfl, rfl⟩

/-- C5 witness: the amended statement at a concrete choice of builtins. -/
theorem c5_boolean_coercion_witness :
    SystemConfiguration.get_value anyIntF anyFloatF anyJsonF
        { key := "FLAG", value := "true", data_type := "boolean", is_active := true }
      = .ok (.vBool true) ∧
    SystemConfiguration.get_value anyIntF anyFloatF anyJsonF
        { key := "FLAG", value := "0", data_type := "boolean", is_active := true }
      = .ok (.vBool false) ∧
    SystemConfiguration.get_value anyIntF anyFloatF anyJsonF
        { key := "FLAG", value := "maybe", data_type := "boolean", is_active := true }
      = .ok (.vBool false) :=
  c5_boolean_coercion anyIntF anyFloatF anyJsonF

/-- C7 counterexample: the claim says a HiringSession in a terminal state
never transitions again, but `log_session_error` overwrites the status of an
already completed session with "failed". -/
theorem c7_counterexample :
    exCompletedSession.status = "completed" ∧
    exCompletedSession ∈ exDbCompleted.hiring_sessions ∧
    ((DatabaseAgentManager.log_session_error exMgr exCompletedSession "boom"
        exDbCompleted).hiring_sessions.map (·.status)) = ["failed"] :=
  ⟨rfl, List.mem_cons_self _ _, rfl⟩

/-- C7 (amended): the recorder's operations set the session status
unconditionally — start creates with processing, complete writes completed
and fail writes failed on the row with the session's primary key regardless
of its prior status; in particular terminal states are not sticky and a
second complete/fail call silently overwrites. -/
theorem c7_status_overwrite (mgr : DatabaseAgentManager) (s rc rf : HiringSession)
    (results : PyJson) (t : Rat) (e : String) (db dbS : DB) (sid : String)
    (input : PyJson) (s2 : HiringSession)
    (hcm : rc ∈ (DatabaseAgentManager.log_session_complete mgr s results t db).hiring_sessions)
    (hci : rc.id = s.id)
    (hfm : rf ∈ (DatabaseAgentManager.log_session_error mgr s e db).hiring_sessions)
    (hfi : rf.id = s.id)
    (hstart : DatabaseAgentManager.log_session_start mgr sid input db = (dbS, Except.ok s2)) :
    rc.status = "completed" ∧ rf.status = "failed" ∧ s2.status = "processing" := by
  refine ⟨?_, ?_, ?_⟩
  · simp only [DatabaseAgentManager.log_session_complete, saveSession, List.mem_map] at hcm
    obtain ⟨r0, _, hr0⟩ := hcm
    by_cases h : r0.id = s.id
    · rw [if_pos h] at hr0
      rw [← hr0]
    · rw [if_neg h] at hr0
      rw [← hr0] at hci
      exact absurd hci h
  · simp only [DatabaseAgentManager.log_session_error, saveSession, DB.addError,
      List.mem_map] at hfm
    obtain ⟨r0, _, hr0⟩ := hfm
    by_cases h : r0.id = s.id
    · rw [if_pos h] at hr0
      rw [← hr0]
    · rw [if_neg h] at hr0
      rw [← hr0] at hfi
      exact absurd hfi h
  · simp only [DatabaseAgentManager.log_session_start] at hstart
    by_cases h : db.hiring_sessions.any (fun r => r.session_id == sid)
    · rw [if_pos h] at hstart
      exact absurd (congrArg Prod.snd hstart) (by simp)
    · rw [if_neg h] at hstart
      have := congrArg Prod.snd hstart
      simp only at this
      cases this
      rfl

/-- C7 witness: the amended statement applied to a session that is already
in the terminal state "completed" before the calls. -/
theorem c7_status_overwrite_witness :
    ({ exCompletedSession with
        status := "completed"
        results := PyJson.jobj []
        execution_time := some (5 : Rat) } : HiringSession).status = "completed" ∧
    ({ exCompletedSession with status := "failed" } : HiringSession).status = "failed" ∧
    ({ id := 8, session_id := "s-new", candidate_name := "", job_title := "",
       status := "processing", input_data := PyJson.null, results := PyJson.jobj [],
       model_config_used := some 1, execution_time := none } : HiringSession).status
      = "processing" :=
  c7_status_overwrite exMgr exCompletedSession _ _ (PyJson.jobj []) 5 "boom"
    exDbCompleted _ "s-new" PyJson.null _
    (List.mem_cons_self _ _) rfl (List.mem_cons_self _ _) rfl rfl

/-- C8: a session created by `log_session_start` has status processing and
the resolver's current model reference; after one `log_session_complete`
call the stored row has status completed and a non-null execution time, and
after one `log_session_error` call the stored row has status failed with
exactly one linked ErrorLog of type task_error capturing the error's string
form and the session id. -/
theorem c8_session_lifecycle (mgr : DatabaseAgentManager) (sid : String)
    (input results : PyJson) (t : Rat) (e : String) (db db1 : DB) (s : HiringSession)
    (hfresh_sid : ∀ r ∈ db.hiring_sessions, r.session_id ≠ sid)
    (hfresh_pk : ∀ r ∈ db.hiring_sessions, r.id ≠ db.next_session_pk)
    (hfresh_log : ∀ l ∈ db.error_logs, l.session ≠ some db.next_session_pk)
    (hstart : DatabaseAgentManager.log_session_start mgr sid input db = (db1, Except.ok s)) :
    s.status = "processing" ∧ s.session_id = sid ∧ s.id = db.next_session_pk ∧
    s.model_config_used = some mgr.current_model_config.id ∧
    (DatabaseAgentManager.log_session_complete mgr s results t db1).hiring_sessions =
      db.hiring_sessions ++ [{ s with
        status := "completed"
        results := results
        execution_time := some t }] ∧
    (DatabaseAgentManager.log_session_error mgr s e db1).hiring_sessions =
      db.hiring_sessions ++ [{ s with status := "failed" }] ∧
    (DatabaseAgentManager.log_session_error mgr s e db1).error_logs.filter
        (fun l => decide (l.session = some s.id)) =
      [{ id := db.next_error_pk, error_type := "task_error", message := e,
         details := [("session_id", PyScalar.pstr sid)], session := some s.id,
         model_config := some mgr.current_model_config.id, resolved := false }] := by
  have hany : (db.hiring_sessions.any (fun r => r.session_id == sid)) = false :=
    any_session_id_eq_false _ _ hfresh_sid
  simp only [DatabaseAgentManager.log_session_start, hany, Bool.false_eq_true,
    if_false, Prod.mk.injEq] at hstart
  obtain ⟨hdb1, hs⟩ := hstart
  have hs' := hs
  cases hs'
  subst hdb1
  refine ⟨rfl, rfl, rfl, rfl, ?_, ?_, ?_⟩
  · simp only [DatabaseAgentManager.log_session_complete, saveSession, List.map_append]
    rw [map_update_eq_self _ _ _ (by intro r hr; exact hfresh_pk r hr)]
    simp
  · simp only [DatabaseAgentManager.log_session_error, saveSession, DB.addError,
      List.map_append]
    rw [map_update_eq_self _ _ _ (by intro r hr; exact hfresh_pk r hr)]
    simp
  · simp only [DatabaseAgentManager.log_session_error, saveSession, DB.addError,
      List.filter_append]
    rw [filter_session_eq_nil _ _ (by intro l hl; exact hfresh_log l hl)]
    simp

/-- C8 witness: the lifecycle statement on an empty database. -/
theorem c8_session_lifecycle_witness :
    ({ id := 1, session_id := "s-1", candidate_name := "", job_title := "",
       status := "processing", input_data := PyJson.null, results := PyJson.jobj [],
       model_config_used := some 1, execution_time := none } : HiringSession).status
      = "processing" ∧
    ({ id := 1, session_id := "s-1", candidate_name := "", job_title := "",
       status := "processing", input_data := PyJson.null, results := PyJson.jobj [],
       model_config_used := some 1, execution_time := none } : HiringSession).session_id
      = "s-1" ∧
    ({ id := 1, session_id := "s-1", candidate_name := "", job_title := "",
       status := "processing", input_data := PyJson.null, results := PyJson.jobj [],
       model_config_used := some 1, execution_time := none } : HiringSession).id
      = exDb0.next_session_pk ∧
    ({ id := 1, session_id := "s-1", candidate_name := "", job_title := "",
       status := "processing", input_data := PyJson.null, results := PyJson.jobj [],
       model_config_used := some 1, execution_time := none } : HiringSession).model_config_used
      = some exMgr.current_model_config.id ∧
    (DatabaseAgentManager.log_session_complete exMgr
        { id := 1, session_id := "s-1", candidate_name := "", job_title := "",
          status := "processing", input_data := PyJson.null, results := PyJson.jobj [],
          model_config_used := some 1, execution_time := none }
        (PyJson.jobj []) 5
        { exDb0 with
          hiring_sessions :=
            [{ id := 1, session_id := "s-1", candidate_name := "", job_title := "",
               status := "processing", input_data := PyJson.null,
               results := PyJson.jobj [], model_config_used := some 1,
               execution_time := none }]
          next_session_pk := 2 }).hiring_sessions =
      exDb0.hiring_sessions ++
        [{ id := 1, session_id := "s-1", candidate_name := "", job_title := "",
           status := "completed", input_data := PyJson.null, results := PyJson.jobj [],
           model_config_used := some 1, execution_time := some 5 }] ∧
    (DatabaseAgentManager.log_session_error exMgr
        { id := 1, session_id := "s-1", candidate_name := "", job_title := "",
          status := "processing", input_data := PyJson.null, results := PyJson.jobj [],
          model_config_used := some 1, execution_time := none }
        "boom"
        { exDb0 with
          hiring_sessions :=
            [{ id := 1, session_id := "s-1", candidate_name := "", job_title := "",
               status := "processing", input_data := PyJson.null,
               results := PyJson.jobj [], model_config_used := some 1,
               execution_time := none }]
          next_session_pk := 2 }).hiring_sessions =
      exDb0.hiring_sessions ++
        [{ id := 1, session_id := "s-1", candidate_name := "", job_title := "",
           status := "failed", input_data := PyJson.null, results := PyJson.jobj [],
           model_config_used := some 1, execution_time := none }] ∧
    (DatabaseAgentManager.log_session_error exMgr
        { id := 1, session_id := "s-1", candidate_name := "", job_title := "",
          status := "processing", input_data := PyJson.null, results := PyJson.jobj [],
          model_config_used := some 1, execution_time := none }
        "boom"
        { exDb0 with
          hiring_sessions :=
            [{ id := 1, session_id := "s-1", candidate_name := "", job_title := "",
               status := "processing", input_data := PyJson.null,
               results := PyJson.jobj [], model_config_used := some 1,
               execution_time := none }]
          next_session_pk := 2 }).error_logs.filter
        (fun l => decide (l.session = some 1)) =
      [{ id := exDb0.next_error_pk, error_type := "task_error", message := "boom",
         details := [("session_id", PyScalar.pstr "s-1")], session := some 1,
         model_config := some exMgr.current_model_config.id, resolved := false }] :=
  c8_session_lifecycle exMgr "s-1" PyJson.null (PyJson.jobj []) 5 "boom" exDb0 _ _
    (by simp [exDb0]) (by simp [exDb0]) (by simp [exDb0]) rfl

/-- C9: posting a new hiring session whose session id already exists is
rejected with HTTP 400 and the "Session ID already exists" message, and the
database — in particular the HiringSession table — is unchanged. -/
theorem c9_duplicate_session_rejected (db : DB) (data : SessionCreateData)
    (hlen : data.session_id.length ≤ 100)
    (hdup : ∃ s ∈ db.hiring_sessions, s.session_id = data.session_id) :
    hiring_sessions_post db data =
      (db, ⟨400, .fieldErrors [("session_id", ["Session ID already exists"])]⟩) := by
  obtain ⟨s, hs, hsid⟩ := hdup
  have hany : (db.hiring_sessions.any (fun r => r.session_id == data.session_id)) = true :=
    List.any_eq_true.2 ⟨s, hs, by simp [hsid]⟩
  have h1 : ¬ (100 < data.session_id.length) := by omega
  simp [hiring_sessions_post, h1, hany]

/-- C9 witness: a concrete duplicate post against the example database. -/
theorem c9_duplicate_session_rejected_witness :
    hiring_sessions_post exDbCompleted
        { session_id := "sess-7", candidate_name := "A", job_title := "B",
          input_data := PyJson.null } =
      (exDbCompleted, ⟨400, .fieldErrors [("session_id", ["Session ID already exists"])]⟩) :=
  c9_duplicate_session_rejected exDbCompleted
    { session_id := "sess-7", candidate_name := "A", job_title := "B",
      input_data := PyJson.null }
    (by decide) ⟨exCompletedSession, List.mem_cons_self _ _, rfl⟩

/-- C10: resolve-multiple with a non-empty id list marks exactly the
matching ErrorLog rows resolved (missing ids silently ignored), reports the
number of rows actually matched — at most the number of ids when row ids
are unique — and an empty or absent list yields HTTP 400 with no change. -/
theorem c10_resolve_multiple (db : DB) (error_ids : Option (List Nat)) :
    (error_ids.getD [] = [] →
      error_logs_resolve_multiple db error_ids =
        (db, ⟨400, .failureErr "No error IDs provided"⟩)) ∧
    (∀ ids : List Nat, error_ids = some ids → ids ≠ [] →
      (error_logs_resolve_multiple db error_ids).2 =
        ⟨200, .successMsg (natToString
            (db.error_logs.filter (fun e => decide (e.id ∈ ids))).length
          ++ " errors marked as resolved")⟩ ∧
      (error_logs_resolve_multiple db error_ids).1.hiring_sessions = db.hiring_sessions ∧
      (error_logs_resolve_multiple db error_ids).1.model_configs = db.model_configs ∧
      (error_logs_resolve_multiple db error_ids).1.error_logs =
        db.error_logs.map
          (fun e => if e.id ∈ ids then { e with resolved := true } else e) ∧
      (∀ e ∈ db.error_logs, e.id ∈ ids →
        ({ e with resolved := true } : ErrorLog) ∈
          (error_logs_resolve_multiple db error_ids).1.error_logs) ∧
      (∀ e ∈ db.error_logs, e.id ∉ ids →
        e ∈ (error_logs_resolve_multiple db error_ids).1.error_logs) ∧
      ((db.error_logs.map (·.id)).Nodup →
        (db.error_logs.filter (fun e => decide (e.id ∈ ids))).length ≤ ids.length)) := by
  constructor
  · intro h
    simp [error_logs_resolve_multiple, h]
  · intro ids hsome hne
    subst hsome
    have hstep : error_logs_resolve_multiple db (some ids) =
        ({ db with
            error_logs := db.error_logs.map
              (fun e => if e.id ∈ ids then { e with resolved := true } else e) },
         ⟨200, .successMsg (natToString
             (db.error_logs.filter (fun e => decide (e.id ∈ ids))).length
           ++ " errors marked as resolved")⟩) := by
      simp [error_logs_resolve_multiple, hne]
    rw [hstep]
    refine ⟨rfl, rfl, rfl, rfl, ?_, ?_, fun hnd => filter_mem_length_le _ _ hnd⟩
    · intro e he hid
      exact List.mem_map.2 ⟨e, he, by simp [hid]⟩
    · intro e he hid
      exact List.mem_map.2 ⟨e, he, by simp [hid]⟩

/-- C10 witness: resolving ids [1, 3] against the example database, in which
only id 1 exists; one row is updated and the count reports 1. -/
theorem c10_resolve_multiple_witness :
    (error_logs_resolve_multiple exDbErrors (some [1, 3])).2 =
      ⟨200, .successMsg (natToString
          (exDbErrors.error_logs.filter
            (fun e => decide (e.id ∈ ([1, 3] : List Nat)))).length
        ++ " errors marked as resolved")⟩ ∧
    (error_logs_resolve_multiple exDbErrors (some [1, 3])).1.error_logs =
      exDbErrors.error_logs.map
        (fun e => if e.id ∈ ([1, 3] : List Nat) then { e with resolved := true } else e) :=
  ⟨((c10_resolve_multiple exDbErrors (some [1, 3])).2 [1, 3] rfl (by decide)).1,
   ((c10_resolve_multiple exDbErrors (some [1, 3])).2 [1, 3] rfl (by decide)).2.2.2.1⟩

/-! Helper lemmas for the agent assembler. -/

theorem dictGet_insert (k k2 : String) (v : Agent) (m : List (String × Agent)) :
    dictGet k (dictInsert k2 v m) = if k2 = k then some v else dictGet k m := by
  induction m with
  | nil => simp [dictInsert, dictGet]
  | cons p m ih =>
    by_cases h : p.1 = k2
    · by_cases h2 : k2 = k
      · simp [dictInsert, dictGet, h, h2]
      · have h3 : p.1 ≠ k := by rw [h]; exact h2
        simp [dictInsert, dictGet, h, h2, h3]
    · by_cases h2 : p.1 = k
      · have h3 : ¬ (k2 = k) := by
          intro hk
          exact h (h2.trans hk.symm)
        have h4 : ¬ (k = k2) := fun hk => h3 hk.symm
        simp [dictInsert, dictGet, h, h2, h3, h4]
      · simp [dictInsert, dictGet, h, h2, ih]

theorem dictGet_mem (k : String) (a : Agent) (m : List (String × Agent))
    (h : dictGet k m = some a) : (k, a) ∈ m := by
  induction m with
  | nil => simp [dictGet] at h
  | cons p m ih =>
    by_cases hp : p.1 = k
    · simp only [dictGet, hp, if_true] at h
      cases h
      rw [← hp]
      exact List.mem_cons_self _ _
    · simp only [dictGet, hp, if_false] at h
      exact List.mem_cons_of_mem _ (ih h)

theorem mem_dictInsert (p : String × Agent) (k : String) (v : Agent)
    (m : List (String × Agent)) (h : p ∈ dictInsert k v m) : p = (k, v) ∨ p ∈ m := by
  induction m with
  | nil => simpa [dictInsert] using h
  | cons q m ih =>
    by_cases hq : q.1 = k
    · simp only [dictInsert, hq, if_true, List.mem_cons] at h
      rcases h with h | h
      · exact Or.inl h
      · exact Or.inr (List.mem_cons_of_mem _ h)
    · simp only [dictInsert, hq, if_false, List.mem_cons] at h
      rcases h with h | h
      · exact Or.inr (by simp [h])
      · rcases ih h with h2 | h2
        · exact Or.inl h2
        · exact Or.inr (List.mem_cons_of_mem _ h2)

theorem dictGet_fold_isSome (llm : LLM) (l : List AgentConfiguration) :
    ∀ (m : List (String × Agent)) (k : String),
    (dictGet k (l.foldl (fun m c => dictInsert c.agent_type (mkAgent llm c) m) m)).isSome ↔
      (dictGet k m).isSome ∨ k ∈ l.map (·.agent_type) := by
  induction l with
  | nil => simp
  | cons c cs ih =>
    intro m k
    simp only [List.foldl_cons, List.map_cons, List.mem_cons]
    rw [ih]
    rw [dictGet_insert]
    by_cases h : c.agent_type = k
    · simp [h]
    · have h2 : ¬ (k = c.agent_type) := fun hk => h hk.symm
      simp [h, h2]

theorem fold_llm_invariant (llm : LLM) (l : List AgentConfiguration) :
    ∀ (m : List (String × Agent)), (∀ p ∈ m, p.2.llm = llm) →
    ∀ p ∈ l.foldl (fun m c => dictInsert c.agent_type (mkAgent llm c) m) m, p.2.llm = llm := by
  induction l with
  | nil =>
    intro m hm
    simpa using hm
  | cons c cs ih =>
    intro m hm
    simp only [List.foldl_cons]
    apply ih
    intro p hp
    rcases mem_dictInsert p _ _ _ hp with h | h
    · subst h
      rfl
    · exact hm p h

theorem two_le_length_of_mem {α : Type} {a b : α} {l : List α}
    (ha : a ∈ l) (hb : b ∈ l) (hne : a ≠ b) : 2 ≤ l.length := by
  cases l with
  | nil => cases ha
  | cons x xs =>
    cases xs with
    | nil =>
      simp only [List.mem_singleton] at ha hb
      exact absurd (ha.trans hb.symm) hne
    | cons y ys =>
      simp only [List.length_cons]
      omega

theorem filter_active_map_model_config (l : List AgentConfiguration)
    (f : AgentConfiguration → Nat) :
    (l.map (fun c => { c with model_config := f c })).filter (·.is_active) =
      (l.filter (·.is_active)).map (fun c => { c with model_config := f c }) := by
  induction l with
  | nil => simp
  | cons c cs ih =>
    by_cases h : c.is_active
    · simp [List.filter_cons, h, ih]
    · simp [List.filter_cons, h, ih]

theorem fold_map_model_config (llm : LLM) (l : List AgentConfiguration)
    (f : AgentConfiguration → Nat) :
    ∀ m : List (String × Agent),
    (l.map (fun c => { c with model_config := f c })).foldl
        (fun m c => dictInsert c.agent_type (mkAgent llm c) m) m =
      l.foldl (fun m c => dictInsert c.agent_type (mkAgent llm c) m) m := by
  induction l with
  | nil => intro m; rfl
  | cons c cs ih =>
    intro m
    simp only [List.map_cons, List.foldl_cons]
    exact ih _

/-- C4: every agent pair returned by `create_agents` is bound to the
resolver's single winning model handle; the result never depends on the
rows' own per-row `model_config` references; and assembly succeeds exactly
when the active rows include both the `job_matcher` and the `bias_auditor`
agent types (otherwise it fails). -/
theorem c4_agents_bound_to_winning_model (mgr : DatabaseAgentManager) (db : DB) :
    (∀ j b, create_agents mgr db = .ok (j, b) → j.llm = mgr.llm ∧ b.llm = mgr.llm) ∧
    ((∃ j b, create_agents mgr db = .ok (j, b)) ↔
      ("job_matcher" ∈ (db.agent_configs.filter (·.is_active)).map (·.agent_type) ∧
       "bias_auditor" ∈ (db.agent_configs.filter (·.is_active)).map (·.agent_type))) ∧
    (∀ f : AgentConfiguration → Nat,
      create_agents mgr
          { db with
            agent_configs :=
              db.agent_configs.map (fun c => { c with model_config := f c }) } =
        create_agents mgr db) := by
  have hbase : ∀ k : String, dictGet k ([] : List (String × Agent)) = none := by
    intro k; rfl
  refine ⟨?_, ?_, ?_⟩
  · intro j b h
    by_cases hlen : (db.agent_configs.filter (·.is_active)).length < 2
    · simp [create_agents, hlen] at h
    · simp only [create_agents, hlen, if_false] at h
      cases hjm : dictGet "job_matcher"
          ((db.agent_configs.filter (·.is_active)).foldl
            (fun m config => dictInsert config.agent_type (mkAgent mgr.llm config) m) []) with
      | none => rw [hjm] at h; simp at h
      | some vj =>
        cases hbm : dictGet "bias_auditor"
            ((db.agent_configs.filter (·.is_active)).foldl
              (fun m config => dictInsert config.agent_type (mkAgent mgr.llm config) m) []) with
        | none => rw [hjm, hbm] at h; simp at h
        | some vb =>
          rw [hjm, hbm] at h
          simp only [Except.ok.injEq, Prod.mk.injEq] at h
          obtain ⟨hj, hb⟩ := h
          subst hj; subst hb
          constructor
          · exact fold_llm_invariant mgr.llm _ [] (by simp) _ (dictGet_mem _ _ _ hjm)
          · exact fold_llm_invariant mgr.llm _ [] (by simp) _ (dictGet_mem _ _ _ hbm)
  · constructor
    · rintro ⟨j, b, h⟩
      by_cases hlen : (db.agent_configs.filter (·.is_active)).length < 2
      · simp [create_agents, hlen] at h
      · simp only [create_agents, hlen, if_false] at h
        cases hjm : dictGet "job_matcher"
            ((db.agent_configs.filter (·.is_active)).foldl
              (fun m config => dictInsert config.agent_type (mkAgent mgr.llm config) m) []) with
        | none => rw [hjm] at h; simp at h
        | some vj =>
          cases hbm : dictGet "bias_auditor"
              ((db.agent_configs.filter (·.is_active)).foldl
                (fun m config => dictInsert config.agent_type (mkAgent mgr.llm config) m) []) with
          | none => rw [hjm, hbm] at h; simp at h
          | some vb =>
            have h1 : ("job_matcher" : String) ∈
                (db.agent_configs.filter (·.is_active)).map (·.agent_type) := by
              have := (dictGet_fold_isSome mgr.llm _ [] "job_matcher").1 (by rw [hjm]; rfl)
              simpa [hbase] using this
            have h2 : ("bias_auditor" : String) ∈
                (db.agent_configs.filter (·.is_active)).map (·.agent_type) := by
              have := (dictGet_fold_isSome mgr.llm _ [] "bias_auditor").1 (by rw [hbm]; rfl)
              simpa [hbase] using this
            exact ⟨h1, h2⟩
    · rintro ⟨h1, h2⟩
      have hlen2 : 2 ≤ ((db.agent_configs.filter (·.is_active)).map (·.agent_type)).length :=
        two_le_length_of_mem h1 h2 (by decide)
      have hlen : ¬ ((db.agent_configs.filter (·.is_active)).length < 2) := by
        rw [List.length_map] at hlen2
        omega
      have hjm : (dictGet "job_matcher"
          ((db.agent_configs.filter (·.is_active)).foldl
            (fun m config => dictInsert config.agent_type (mkAgent mgr.llm config) m) [])).isSome := by
        rw [dictGet_fold_isSome]
        exact Or.inr h1
      have hbm : (dictGet "bias_auditor"
          ((db.agent_configs.filter (·.is_active)).foldl
            (fun m config => dictInsert config.agent_type (mkAgent mgr.llm config) m) [])).isSome := by
        rw [dictGet_fold_isSome]
        exact Or.inr h2
      obtain ⟨vj, hvj⟩ := Option.isSome_iff_exists.1 hjm
      obtain ⟨vb, hvb⟩ := Option.isSome_iff_exists.1 hbm
      refine ⟨vj, vb, ?_⟩
      simp only [create_agents, hlen, if_false]
      rw [hvj, hvb]
  · intro f
    simp only [create_agents, filter_active_map_model_config, List.length_map,
      fold_map_model_config]

/-- C4 witness: assembly against the example database with both required
agent rows; both returned agents carry the manager's winning llm handle. -/
theorem c4_agents_bound_to_winning_model_witness :
    ((mkAgent exMgr.llm exAgentJM).llm = exMgr.llm ∧
     (mkAgent exMgr.llm exAgentBA).llm = exMgr.llm) ∧
    ("job_matcher" ∈ (exDbAgents.agent_configs.filter (·.is_active)).map (·.agent_type) ∧
     "bias_auditor" ∈ (exDbAgents.agent_configs.filter (·.is_active)).map (·.agent_type)) :=
  ⟨(c4_agents_bound_to_winning_model exMgr exDbAgents).1 _ _ rfl,
   (c4_agents_bound_to_winning_model exMgr exDbAgents).2.1.1 ⟨_, _, rfl⟩⟩

/-! Helper lemmas for the fallback resolver. -/

theorem insertByPriority_perm (c : ModelConfiguration) (l : List ModelConfiguration) :
    (insertByPriority c l).Perm (c :: l) := by
  induction l with
  | nil => exact List.Perm.refl _
  | cons d ds ih =>
    by_cases h : d.priority < c.priority
    · simp only [insertByPriority, h, if_true]
      exact List.Perm.refl _
    · simp only [insertByPriority, h, if_false]
      exact (ih.cons d).trans (List.Perm.swap c d ds)

theorem order_by_priority_desc_perm (l : List ModelConfiguration) :
    (order_by_priority_desc l).Perm l := by
  induction l with
  | nil => exact List.Perm.refl _
  | cons c cs ih =>
    exact (insertByPriority_perm c (order_by_priority_desc cs)).trans (ih.cons c)

theorem mem_order_by_priority_desc (x : ModelConfiguration) (l : List ModelConfiguration) :
    x ∈ order_by_priority_desc l ↔ x ∈ l :=
  (order_by_priority_desc_perm l).mem_iff

theorem insertByPriority_pairwise (c : ModelConfiguration) (l : List ModelConfiguration)
    (h : l.Pairwise (fun a b => b.priority ≤ a.priority)) :
    (insertByPriority c l).Pairwise (fun a b => b.priority ≤ a.priority) := by
  induction l with
  | nil => simp [insertByPriority]
  | cons d ds ih =>
    rcases List.pairwise_cons.1 h with ⟨hd, hds⟩
    by_cases hlt : d.priority < c.priority
    · simp only [insertByPriority, hlt, if_true]
      refine List.pairwise_cons.2 ⟨?_, h⟩
      intro x hx
      rcases List.mem_cons.1 hx with rfl | hx
      · omega
      · have := hd x hx
        omega
    · simp only [insertByPriority, hlt, if_false]
      refine List.pairwise_cons.2 ⟨?_, ih hds⟩
      intro x hx
      have hx2 := List.mem_cons.1 ((insertByPriority_perm c ds).mem_iff.1 hx)
      rcases hx2 with rfl | hx2
      · omega
      · exact hd x hx2

theorem order_by_priority_desc_pairwise (l : List ModelConfiguration) :
    (order_by_priority_desc l).Pairwise (fun a b => b.priority ≤ a.priority) := by
  induction l with
  | nil => simp [order_by_priority_desc]
  | cons c cs ih => exact insertByPriority_pairwise c _ ih

theorem first_success_decomp (llmRaises : ModelConfiguration → Option String) :
    ∀ l : List ModelConfiguration, (∃ c ∈ l, llmRaises c = none) →
    ∃ pre good rest, l = pre ++ good :: rest ∧
      (∀ c ∈ pre, llmRaises c ≠ none) ∧ llmRaises good = none := by
  intro l
  induction l with
  | nil =>
    rintro ⟨c, hc, -⟩
    cases hc
  | cons c cs ih =>
    rintro ⟨c0, hc0, hc0n⟩
    by_cases hc : llmRaises c = none
    · exact ⟨[], c, cs, rfl, by simp, hc⟩
    · have hc0cs : c0 ∈ cs := by
        rcases List.mem_cons.1 hc0 with rfl | h
        · exact absurd hc0n hc
        · exact h
      obtain ⟨pre, good, rest, heq, hpre, hgood⟩ := ih ⟨c0, hc0cs, hc0n⟩
      refine ⟨c :: pre, good, rest, by rw [heq]; rfl, ?_, hgood⟩
      intro x hx
      rcases List.mem_cons.1 hx with rfl | hx
      · exact hc
      · exact hpre x hx

theorem initLoop_all_fail (llmRaises : ModelConfiguration → Option String) (api_key : String) :
    ∀ (l : List ModelConfiguration) (db : DB), (∀ c ∈ l, llmRaises c ≠ none) →
    initLoop llmRaises api_key l db =
      (failLogsDb llmRaises db l,
       .error (.runtimeError "No working model configuration found")) := by
  intro l
  induction l with
  | nil => intro db _; rfl
  | cons c cs ih =>
    intro db h
    cases hR : llmRaises c with
    | none => exact absurd hR (h c (List.mem_cons_self _ _))
    | some e =>
      simp only [initLoop, failLogsDb, hR]
      exact ih _ (fun x hx => h x (List.mem_cons_of_mem _ hx))

theorem initLoop_first_success (llmRaises : ModelConfiguration → Option String)
    (api_key : String) (good : ModelConfiguration) (hgood : llmRaises good = none) :
    ∀ (pre rest : List ModelConfiguration) (db : DB), (∀ c ∈ pre, llmRaises c ≠ none) →
    initLoop llmRaises api_key (pre ++ good :: rest) db =
      (failLogsDb llmRaises db pre, .ok (buildLLM api_key good, good)) := by
  intro pre
  induction pre with
  | nil =>
    intro rest db _
    simp only [List.nil_append, initLoop, hgood, failLogsDb]
  | cons c cs ih =>
    intro rest db h
    cases hR : llmRaises c with
    | none => exact absurd hR (h c (List.mem_cons_self _ _))
    | some e =>
      simp only [List.cons_append, initLoop, failLogsDb, hR]
      exact ih rest _ (fun x hx => h x (List.mem_cons_of_mem _ hx))

theorem failLogsDb_fields (llmRaises : ModelConfiguration → Option String) :
    ∀ (l : List ModelConfiguration) (db : DB),
    (failLogsDb llmRaises db l).hiring_sessions = db.hiring_sessions ∧
    (failLogsDb llmRaises db l).model_configs = db.model_configs ∧
    (failLogsDb llmRaises db l).agent_configs = db.agent_configs ∧
    (failLogsDb llmRaises db l).next_session_pk = db.next_session_pk := by
  intro l
  induction l with
  | nil => intro db; exact ⟨rfl, rfl, rfl, rfl⟩
  | cons c cs ih =>
    intro db
    cases hR : llmRaises c with
    | none =>
      simp only [failLogsDb, hR]
      exact ih db
    | some e =>
      simp only [failLogsDb, hR]
      exact ih _

theorem failLogsDb_error_logs (llmRaises : ModelConfiguration → Option String) :
    ∀ (l : List ModelConfiguration) (db : DB),
    (failLogsDb llmRaises db l).error_logs =
      db.error_logs ++ failLogs llmRaises db.next_error_pk l := by
  intro l
  induction l with
  | nil => intro db; simp [failLogsDb, failLogs]
  | cons c cs ih =>
    intro db
    cases hR : llmRaises c with
    | none =>
      simp only [failLogsDb, failLogs, hR]
      exact ih db
    | some e =>
      simp only [failLogsDb, failLogs, hR]
      rw [ih]
      simp [DB.addError]

theorem failLogs_length (llmRaises : ModelConfiguration → Option String) :
    ∀ (l : List ModelConfiguration) (pk : Nat), (∀ c ∈ l, llmRaises c ≠ none) →
    (failLogs llmRaises pk l).length = l.length := by
  intro l
  induction l with
  | nil => intro pk _; rfl
  | cons c cs ih =>
    intro pk h
    cases hR : llmRaises c with
    | none => exact absurd hR (h c (List.mem_cons_self _ _))
    | some e =>
      simp only [failLogs, hR, List.length_cons]
      rw [ih (pk + 1) (fun x hx => h x (List.mem_cons_of_mem _ hx))]

theorem failLogs_get? (llmRaises : ModelConfiguration → Option String) :
    ∀ (l : List ModelConfiguration) (pk : Nat),
    (∀ c ∈ l, llmRaises c ≠ none) → ∀ i, i < l.length →
    ∃ c e, l[i]? = some c ∧ llmRaises c = some e ∧
      (failLogs llmRaises pk l)[i]? = some (mkModelErrorLog (pk + i) c e) := by
  intro l
  induction l with
  | nil =>
    intro pk _ i hi
    simp at hi
  | cons c0 cs ih =>
    intro pk h i hi
    cases hR : llmRaises c0 with
    | none => exact absurd hR (h c0 (List.mem_cons_self _ _))
    | some e0 =>
      cases i with
      | zero =>
        refine ⟨c0, e0, by simp, hR, ?_⟩
        simp [failLogs, hR]
      | succ j =>
        have hj : j < cs.length := by
          simp only [List.length_cons] at hi
          omega
        obtain ⟨c, e, h1, h2, h3⟩ :=
          ih (pk + 1) (fun x hx => h x (List.mem_cons_of_mem _ hx)) j hj
        refine ⟨c, e, by simpa using h1, h2, ?_⟩
        simp only [failLogs, hR, List.getElem?_cons_succ]
        rw [h3]
        have harith : pk + 1 + j = pk + (j + 1) := by omega
        rw [harith]

theorem init_llm_eq (llmRaises : ModelConfiguration → Option String) (api_key : String)
    (db : DB) :
    init_llm llmRaises api_key db =
      if order_by_priority_desc (db.model_configs.filter (·.is_active)) = [] then
        (db, .error (.valueError "No active model configurations found in database"))
      else
        initLoop llmRaises api_key
          (order_by_priority_desc (db.model_configs.filter (·.is_active))) db := rfl

/-- C1: whenever some active configuration's construction succeeds, the
resolver returns a successful handle built from an active row whose
construction does not raise and whose priority is maximal among all active
rows that do not raise; and a memoized manager stays current: a further
`get_manager` call returns the cached manager unchanged. -/
theorem c1_resolver_selects_highest_priority (llmRaises : ModelConfiguration → Option String)
    (api_key : String) (db : DB)
    (hsucc : ∃ c ∈ db.model_configs, c.is_active = true ∧ llmRaises c = none) :
    (∃ config llm,
      (init_llm llmRaises api_key db).2 = .ok (llm, config) ∧
      llm = buildLLM api_key config ∧
      config ∈ db.model_configs ∧ config.is_active = true ∧ llmRaises config = none ∧
      (∀ c ∈ db.model_configs, c.is_active = true → llmRaises c = none →
        c.priority ≤ config.priority)) ∧
    (∀ (llmRaises2 : ModelConfiguration → Option String) (env2 : Option String) (db2 : DB)
        (m : DatabaseAgentManager),
      get_manager llmRaises2 env2 db2 (some m) = (db2, some m, .ok m)) := by
  constructor
  · obtain ⟨c0, hc0mem, hc0act, hc0none⟩ := hsucc
    obtain ⟨pre, good, rest, heq, hpre, hgood⟩ :=
      first_success_decomp llmRaises
        (order_by_priority_desc (db.model_configs.filter (·.is_active)))
        ⟨c0, (mem_order_by_priority_desc c0 _).2 (List.mem_filter.2 ⟨hc0mem, hc0act⟩),
         hc0none⟩
    have hne : order_by_priority_desc (db.model_configs.filter (·.is_active)) ≠ [] := by
      rw [heq]
      simp
    have hgoodS : good ∈ order_by_priority_desc (db.model_configs.filter (·.is_active)) := by
      rw [heq]
      exact List.mem_append_right _ (List.mem_cons_self _ _)
    have hgoodF := List.mem_filter.1 ((mem_order_by_priority_desc good _).1 hgoodS)
    refine ⟨good, buildLLM api_key good, ?_, rfl, hgoodF.1, hgoodF.2, hgood, ?_⟩
    · rw [init_llm_eq, if_neg hne, heq,
        initLoop_first_success llmRaises api_key good hgood pre rest db hpre]
    · intro c hc hcact hcnone
      have hcS : c ∈ pre ++ good :: rest := by
        rw [← heq]
        exact (mem_order_by_priority_desc c _).2 (List.mem_filter.2 ⟨hc, hcact⟩)
      rcases List.mem_append.1 hcS with hcpre | hctail
      · exact absurd hcnone (hpre c hcpre)
      · rcases List.mem_cons.1 hctail with rfl | hcrest
        · omega
        · have hsorted := order_by_priority_desc_pairwise (db.model_configs.filter (·.is_active))
          rw [heq] at hsorted
          exact (List.pairwise_cons.1 (List.pairwise_append.1 hsorted).2.1).1 c hcrest
  · intro llmRaises2 env2 db2 m
    rfl

/-- C1 witness: against the example database the resolver skips the failing
priority-10 row and selects the succeeding priority-5 row, and a cached
manager is returned unchanged. -/
theorem c1_resolver_selects_highest_priority_witness :
    (∃ config llm,
      (init_llm exRaises "key" exDb0).2 = .ok (llm, config) ∧
      llm = buildLLM "key" config ∧
      config ∈ exDb0.model_configs ∧ config.is_active = true ∧ exRaises config = none ∧
      (∀ c ∈ exDb0.model_configs, c.is_active = true → exRaises c = none →
        c.priority ≤ config.priority)) ∧
    get_manager exRaises (some "key") exDb0 (some exMgr) = (exDb0, some exMgr, .ok exMgr) :=
  ⟨(c1_resolver_selects_highest_priority exRaises "key" exDb0
      ⟨exMC2, List.mem_cons_of_mem _ (List.mem_cons_self _ _), rfl, rfl⟩).1,
   (c1_resolver_selects_highest_priority exRaises "key" exDb0
      ⟨exMC2, List.mem_cons_of_mem _ (List.mem_cons_self _ _), rfl, rfl⟩).2
     exRaises (some "key") exDb0 exMgr⟩

/-- C2: when the resolver's ordered active sequence starts with N failing
rows followed by a succeeding one, the run returns the succeeding row's
handle and appends exactly N `model_error` ErrorLog rows, the i-th of which
records the i-th failing configuration and its raised error. -/
theorem c2_fallback_failure_logging (llmRaises : ModelConfiguration → Option String)
    (api_key : String) (db : DB) (fails : List ModelConfiguration)
    (good : ModelConfiguration) (rest : List ModelConfiguration)
    (hord : order_by_priority_desc (db.model_configs.filter (·.is_active)) =
      fails ++ good :: rest)
    (hfail : ∀ c ∈ fails, llmRaises c ≠ none)
    (hgood : llmRaises good = none) :
    init_llm llmRaises api_key db =
      (failLogsDb llmRaises db fails, .ok (buildLLM api_key good, good)) ∧
    (failLogsDb llmRaises db fails).error_logs =
      db.error_logs ++ failLogs llmRaises db.next_error_pk fails ∧
    (failLogs llmRaises db.next_error_pk fails).length = fails.length ∧
    (failLogsDb llmRaises db fails).hiring_sessions = db.hiring_sessions ∧
    (∀ i, i < fails.length →
      ∃ c e, fails[i]? = some c ∧ llmRaises c = some e ∧
        (failLogs llmRaises db.next_error_pk fails)[i]? =
          some (mkModelErrorLog (db.next_error_pk + i) c e)) := by
  have hne : order_by_priority_desc (db.model_configs.filter (·.is_active)) ≠ [] := by
    rw [hord]
    simp
  refine ⟨?_, failLogsDb_error_logs llmRaises fails db,
    failLogs_length llmRaises fails db.next_error_pk hfail,
    (failLogsDb_fields llmRaises fails db).1,
    failLogs_get? llmRaises fails db.next_error_pk hfail⟩
  rw [init_llm_eq, if_neg hne, hord,
    initLoop_first_success llmRaises api_key good hgood fails rest db hfail]

/-- C2 witness: the priority-10 row fails, the priority-5 row succeeds;
exactly one model_error row is logged and the fallback becomes current. -/
theorem c2_fallback_failure_logging_witness :
    init_llm exRaises "key" exDb0 =
      (failLogsDb exRaises exDb0 [exMC], .ok (buildLLM "key" exMC2, exMC2)) ∧
    (failLogsDb exRaises exDb0 [exMC]).error_logs =
      exDb0.error_logs ++ failLogs exRaises exDb0.next_error_pk [exMC] ∧
    (failLogs exRaises exDb0.next_error_pk [exMC]).length = [exMC].length ∧
    (failLogsDb exRaises exDb0 [exMC]).hiring_sessions = exDb0.hiring_sessions :=
  ⟨(c2_fallback_failure_logging exRaises "key" exDb0 [exMC] exMC2 [] rfl
      (by decide) rfl).1,
   (c2_fallback_failure_logging exRaises "key" exDb0 [exMC] exMC2 [] rfl
      (by decide) rfl).2.1,
   (c2_fallback_failure_logging exRaises "key" exDb0 [exMC] exMC2 [] rfl
      (by decide) rfl).2.2.1,
   (c2_fallback_failure_logging exRaises "key" exDb0 [exMC] exMC2 [] rfl
      (by decide) rfl).2.2.2.1⟩

/-- C3: with zero active model configurations the resolver fails with the
spec's ConfigurationError (the source's ValueError) leaving the whole
database — in particular the HiringSession table — untouched, and when every
active configuration's construction raises it fails with the spec's
ModelUnavailableError (the source's RuntimeError). -/
theorem c3_failure_modes (llmRaises : ModelConfiguration → Option String)
    (api_key : String) (db : DB) :
    (db.model_configs.filter (·.is_active) = [] →
      init_llm llmRaises api_key db = (db, .error ConfigurationError) ∧
      (init_llm llmRaises api_key db).1.hiring_sessions = db.hiring_sessions) ∧
    ((∃ c ∈ db.model_configs, c.is_active = true) →
      (∀ c ∈ db.model_configs, c.is_active = true → llmRaises c ≠ none) →
      (init_llm llmRaises api_key db).2 = .error ModelUnavailableError) := by
  constructor
  · intro h
    have h2 : order_by_priority_desc (db.model_configs.filter (·.is_active)) = [] := by
      rw [h]
      rfl
    constructor
    · rw [init_llm_eq, if_pos h2]
      rfl
    · rw [init_llm_eq, if_pos h2]
  · rintro ⟨c0, hc0, hact⟩ hall
    have hne : order_by_priority_desc (db.model_configs.filter (·.is_active)) ≠ [] := by
      intro hnil
      have hm : c0 ∈ order_by_priority_desc (db.model_configs.filter (·.is_active)) :=
        (mem_order_by_priority_desc c0 _).2 (List.mem_filter.2 ⟨hc0, hact⟩)
      rw [hnil] at hm
      cases hm
    have hallS : ∀ c ∈ order_by_priority_desc (db.model_configs.filter (·.is_active)),
        llmRaises c ≠ none := by
      intro c hc
      have hcf := List.mem_filter.1 ((mem_order_by_priority_desc c _).1 hc)
      exact hall c hcf.1 hcf.2
    rw [init_llm_eq, if_neg hne, initLoop_all_fail llmRaises api_key _ db hallS]
    rfl

/-- C3 witness: the zero-active case on a database whose only configuration
is inactive, and the all-fail case on the example database. -/
theorem c3_failure_modes_witness :
    (init_llm exRaisesAll "key" exDbInactive = (exDbInactive, .error ConfigurationError) ∧
     (init_llm exRaisesAll "key" exDbInactive).1.hiring_sessions =
       exDbInactive.hiring_sessions) ∧
    (init_llm exRaisesAll "key" exDb0).2 = .error ModelUnavailableError :=
  ⟨(c3_failure_modes exRaisesAll "key" exDbInactive).1 rfl,
   (c3_failure_modes exRaisesAll "key" exDb0).2
     ⟨exMC, List.mem_cons_self _ _, rfl⟩ (by decide)⟩

/-! Helper lemmas for the template renderer. -/

theorem partsText_cons (p : TPart) (ps : List TPart) :
    partsText (p :: ps) = partText p ++ partsText ps := rfl

theorem replaceGo_skip (pat rep : List Char) :
    ∀ (s : List Char) (n : Nat), replaceGo pat rep n s = replaceGo pat rep 0 (s.drop n) := by
  intro s
  induction s with
  | nil => intro n; cases n <;> rfl
  | cons c cs ih =>
    intro n
    cases n with
    | zero => rfl
    | succ m =>
      simp only [replaceGo, List.drop_succ_cons]
      exact ih m

theorem patMatch_append_self : ∀ (a t : List Char), patMatch a (a ++ t) = true := by
  intro a
  induction a with
  | nil => intro t; rfl
  | cons x xs ih =>
    intro t
    simp only [List.cons_append, patMatch, if_pos rfl]
    exact ih t

theorem replaceAll_lit (p rep : List Char) :
    ∀ (s t : List Char), braceFree s →
    pyReplace (s ++ t) ('{' :: p) rep = s ++ pyReplace t ('{' :: p) rep := by
  intro s
  induction s with
  | nil => intro t _; rfl
  | cons c cs ih =>
    intro t hbf
    have hc : c ≠ '{' := (hbf c (List.mem_cons_self _ _)).1
    have hc2 : ¬ ('{' = c) := fun h => hc h.symm
    simp only [pyReplace, List.cons_append, replaceGo, patMatch, hc2, if_false,
      Bool.false_eq_true, List.cons.injEq, true_and]
    have := ih t (fun x hx => hbf x (List.mem_cons_of_mem _ hx))
    simpa [pyReplace] using this

theorem patMatch_names_ne : ∀ (a b t : List Char), braceFree a → braceFree b → a ≠ b →
    patMatch (a ++ ['}']) (b ++ '}' :: t) = false := by
  intro a
  induction a with
  | nil =>
    intro b t _ hbb hne
    cases b with
    | nil => exact absurd rfl hne
    | cons d bs =>
      have hd : d ≠ '}' := (hbb d (List.mem_cons_self _ _)).2
      have hd2 : ¬ ('}' = d) := fun h => hd h.symm
      simp [patMatch, hd2]
  | cons x as ih =>
    intro b t hba hbb hne
    cases b with
    | nil =>
      have hx : ¬ (x = '}') := (hba x (List.mem_cons_self _ _)).2
      simp [patMatch, hx]
    | cons y bs =>
      by_cases hxy : x = y
      · subst hxy
        have hne2 : as ≠ bs := fun h => hne (by rw [h])
        simp only [List.cons_append, patMatch, if_pos rfl]
        exact ih bs t (fun z hz => hba z (List.mem_cons_of_mem _ hz))
          (fun z hz => hbb z (List.mem_cons_of_mem _ hz)) hne2
      · simp [patMatch, hxy]

theorem replace_at_placeholder (k : String) (rep t : List Char) :
    pyReplace (placeholderChars k ++ t) (placeholderChars k) rep =
      rep ++ pyReplace t (placeholderChars k) rep := by
  have hassoc : placeholderChars k ++ t = '{' :: ((k.data ++ ['}']) ++ t) := by
    simp [placeholderChars]
  have hmatch : patMatch (placeholderChars k) ('{' :: ((k.data ++ ['}']) ++ t)) = true := by
    rw [← hassoc]
    exact patMatch_append_self _ _
  rw [pyReplace, hassoc]
  simp only [replaceGo, hmatch, if_true]
  have hlen : (placeholderChars k).length - 1 = (k.data ++ ['}']).length := by
    simp [placeholderChars]
  rw [hlen, replaceGo_skip, List.drop_left]
  rfl

theorem replace_skip_other_var (k n : String) (rep t : List Char)
    (hk : braceFree k.data) (hn : braceFree n.data) (hne : n ≠ k) :
    pyReplace (placeholderChars n ++ t) (placeholderChars k) rep =
      placeholderChars n ++ pyReplace t (placeholderChars k) rep := by
  have hnames : k.data ≠ n.data := by
    intro h
    exact hne ((congrArg String.mk h).symm : n = k)
  have h1 : placeholderChars n ++ t = '{' :: (n.data ++ '}' :: t) := by
    simp [placeholderChars]
  have hpm : patMatch (placeholderChars k) ('{' :: (n.data ++ '}' :: t)) = false := by
    show (if ('{' : Char) = '{' then patMatch (k.data ++ ['}']) (n.data ++ '}' :: t)
          else false) = false
    rw [if_pos rfl]
    exact patMatch_names_ne k.data n.data t hk hn hnames
  rw [pyReplace, h1]
  simp only [replaceGo, hpm, Bool.false_eq_true, if_false]
  have h2 : replaceGo (placeholderChars k) rep 0 (n.data ++ '}' :: t) =
      n.data ++ replaceGo (placeholderChars k) rep 0 ('}' :: t) := by
    have := replaceAll_lit (k.data ++ ['}']) rep n.data ('}' :: t) hn
    simpa [pyReplace, placeholderChars] using this
  rw [h2]
  have h3 : replaceGo (placeholderChars k) rep 0 ('}' :: t) =
      '}' :: replaceGo (placeholderChars k) rep 0 t := by
    have hpm2 : patMatch (placeholderChars k) ('}' :: t) = false := by
      show (if ('{' : Char) = '}' then patMatch (k.data ++ ['}']) t else false) = false
      rw [if_neg (by decide)]
    simp only [replaceGo, hpm2, Bool.false_eq_true, if_false]
  rw [h3]
  simp [placeholderChars, pyReplace]

theorem partWF_substPart (k : String) (v : List Char) (hv : braceFree v) (p : TPart)
    (hp : partWF p) : partWF (substPart k v p) := by
  cases p with
  | lit s => exact hp
  | var n =>
    by_cases h : n = k
    · simpa [substPart, h, partWF] using hv
    · simpa [substPart, h, partWF] using hp

theorem pyReplace_parts (k : String) (v : List Char) (hkb : braceFree k.data) :
    ∀ ps : List TPart, (∀ p ∈ ps, partWF p) →
    pyReplace (partsText ps) (placeholderChars k) v =
      partsText (ps.map (substPart k v)) := by
  intro ps
  induction ps with
  | nil => intro _; rfl
  | cons p ps ih =>
    intro hwf
    have ihs := ih (fun x hx => hwf x (List.mem_cons_of_mem _ hx))
    cases p with
    | lit s =>
      have hbs : braceFree s := hwf (.lit s) (List.mem_cons_self _ _)
      rw [List.map_cons, partsText_cons, partsText_cons]
      show pyReplace (s ++ partsText ps) ('{' :: (k.data ++ ['}'])) v = _
      rw [replaceAll_lit _ _ _ _ hbs]
      show s ++ pyReplace (partsText ps) (placeholderChars k) v = _
      rw [ihs]
      rfl
    | var n =>
      rcases hwf (.var n) (List.mem_cons_self _ _) with ⟨-, hbn⟩
      rw [List.map_cons, partsText_cons, partsText_cons]
      by_cases hnk : n = k
      · subst hnk
        show pyReplace (placeholderChars n ++ partsText ps) (placeholderChars n) v = _
        rw [replace_at_placeholder, ihs]
        simp [substPart, partText]
      · show pyReplace (placeholderChars n ++ partsText ps) (placeholderChars k) v = _
        rw [replace_skip_other_var k n v _ hkb hbn hnk, ihs]
        simp [substPart, partText, hnk]

theorem render_parts (vars : List (String × PyScalar)) :
    ∀ ps : List TPart, (∀ p ∈ ps, partWF p) →
    (∀ kv ∈ vars, braceFree kv.1.data ∧ braceFree (pyStr kv.2).data) →
    vars.foldl (fun content kv => pyReplace content (placeholderChars kv.1) (pyStr kv.2).data)
        (partsText ps) =
      partsText (ps.map (substVar vars)) := by
  induction vars with
  | nil =>
    intro ps _ _
    simp only [List.foldl_nil]
    have h : ps.map (substVar []) = ps := by
      have h2 : ∀ p ∈ ps, substVar [] p = id p := by
        intro p _
        cases p with
        | lit s => rfl
        | var n => rfl
      rw [List.map_congr_left h2, List.map_id]
    rw [h]
  | cons kv vs ih =>
    intro ps hwf hv
    have hkv := hv kv (List.mem_cons_self _ _)
    simp only [List.foldl_cons]
    rw [pyReplace_parts kv.1 (pyStr kv.2).data hkv.1 ps hwf]
    rw [ih (ps.map (substPart kv.1 (pyStr kv.2).data))
      (fun p hp => by
        obtain ⟨p0, hp0, rfl⟩ := List.mem_map.1 hp
        exact partWF_substPart kv.1 _ hkv.2 p0 (hwf p0 hp0))
      (fun x hx => hv x (List.mem_cons_of_mem _ hx))]
    rw [List.map_map]
    congr 1
    apply List.map_congr_left
    intro p _
    cases p with
    | lit s => rfl
    | var n =>
      by_cases hnk : kv.1 = n
      · simp [substPart, substVar, lookupVar, hnk]
      · have hnk2 : ¬ (n = kv.1) := fun h => hnk h.symm
        simp [substPart, substVar, lookupVar, hnk, hnk2]

/-- C6: rendering a template whose content decomposes into brace-free
literal runs and `{name}` placeholder tokens, with supplied values whose
string forms are brace-free, replaces every occurrence of each supplied
placeholder by the string form of its value and leaves every unsupplied
placeholder token verbatim, raising nothing. -/
theorem c6_render_substitution (t : PromptTemplate) (ps : List TPart)
    (vars : List (String × PyScalar))
    (hdecomp : t.content.data = partsText ps)
    (hwf : ∀ p ∈ ps, partWF p)
    (hvars : ∀ kv ∈ vars, braceFree kv.1.data ∧ braceFree (pyStr kv.2).data) :
    (t.render vars).data = partsText (ps.map (substVar vars)) := by
  show (String.mk (vars.foldl
      (fun content kv => pyReplace content (placeholderChars kv.1) (pyStr kv.2).data)
      t.content.data)).data = _
  rw [hdecomp]
  exact render_parts vars ps hwf hvars

/-- C6 witness: rendering the example template with token_limit=1500 yields
literal "1500" in place and preserves the unsupplied `{other_var}` token. -/
theorem c6_render_substitution_witness :
    (exTemplate.render [("token_limit", .pint 1500)]).data =
      "Use at most 1500 tokens. Keep {other_var} short.".data :=
  (c6_render_substitution exTemplate exParts [("token_limit", .pint 1500)]
      rfl (by decide) (by decide)).trans (by decide)
